import Mathlib

/-!
Shallow embedding of the SOCKS5 packet codec of the socks-server repository
(`src/packets.rs`, `src/packets/*.rs`) and of the parts of the negotiation
layer that the verified properties refer to.

Conventions:
* Byte buffers are `List Nat`, each element a byte value (0..255).
* Rust `String` values are represented by their UTF-8 byte vectors
  (`List Nat`); Rust string equality is byte equality.
* Rust functions that can panic are embedded with an explicit
  `Outcome.panic` result, so that an out-of-bounds slice index and an
  `unwrap()` of an `Err` are observable outcomes, distinct from `Ok`
  and from returned error values.
* A Rust slice `&raw[a..b]` (with `a ≤ b ≤ len`) is `(raw.drop a).take (b-a)`.
-/

namespace Socks

/-- Three-way outcome of running a fallible Rust function: a returned `Ok`
value, a returned `Err` value, or a panic (index out of bounds / `unwrap`). -/
inductive Outcome (ε α : Type) where
  | ok : α → Outcome ε α
  | err : ε → Outcome ε α
  | panic : Outcome ε α
deriving DecidableEq, Repr

/-- Protocol version constant `SOCKS_VERSION: u8 = 5` from `src/packets.rs`. -/
def SOCKS_VERSION : Nat := 5

/-- Modelled from the spec: the constant `USER_PASSWORD_AUTH_VERSION` is
declared in the packets module root, which is absent from the sources at
hand (`src/packets/client_user_pass_auth.rs` imports it); the data model
fixes the user/password sub-negotiation version to 1. -/
def USER_PASSWORD_AUTH_VERSION : Nat := 1

/-- Modelled from the spec: the constant `RESERVED` is declared in the
packets module root, which is absent from the sources at hand
(`src/packets/server_reply.rs` imports it); the data model fixes the
reserved byte of a server reply to 0, and the older iteration
(`src/packets.rs`, `ServerReply::new`) hard-codes `reserved: 0`. -/
def RESERVED : Nat := 0

/-- `AuthMethod` from `src/packets.rs`: `NoAuth`, `Gssapi`, `UserPassword`,
`NoAcceptableMethod = 255`. -/
inductive AuthMethod where
  | NoAuth
  | Gssapi
  | UserPassword
  | NoAcceptableMethod
deriving DecidableEq, Repr

/-- Discriminant of `AuthMethod` (`as u8` in Rust). -/
def AuthMethod.toByte : AuthMethod → Nat
  | .NoAuth => 0
  | .Gssapi => 1
  | .UserPassword => 2
  | .NoAcceptableMethod => 255

/-- `TryFrom<u8> for AuthMethod` from `src/packets.rs`. -/
def AuthMethod.tryFrom : Nat → Option AuthMethod
  | 0 => some .NoAuth
  | 1 => some .Gssapi
  | 2 => some .UserPassword
  | 255 => some .NoAcceptableMethod
  | _ => none

/-- `AddressType` from `src/packets.rs`: `Ipv4 = 1`, `DomainName = 3`,
`Ipv6 = 4`. -/
inductive AddressType where
  | Ipv4
  | DomainName
  | Ipv6
deriving DecidableEq, Repr

/-- Discriminant of `AddressType` (`as u8` in Rust). -/
def AddressType.toByte : AddressType → Nat
  | .Ipv4 => 1
  | .DomainName => 3
  | .Ipv6 => 4

/-- `TryFrom<u8> for AddressType` from `src/packets.rs`. -/
def AddressType.tryFrom : Nat → Option AddressType
  | 1 => some .Ipv4
  | 3 => some .DomainName
  | 4 => some .Ipv6
  | _ => none

/-- `RequestCommand` from `src/packets/client_request.rs`:
`Connect = 1`, `Bind = 2`, `UdpAssociate = 3`. -/
inductive RequestCommand where
  | Connect
  | Bind
  | UdpAssociate
deriving DecidableEq, Repr

/-- `TryFrom<u8> for RequestCommand` from `src/packets/client_request.rs`. -/
def RequestCommand.tryFrom : Nat → Option RequestCommand
  | 1 => some .Connect
  | 2 => some .Bind
  | 3 => some .UdpAssociate
  | _ => none

/-- `DestinationAddress` from `src/packets.rs`: an IPv4 address is its 4
octets, an IPv6 address its 16 octets, a domain name its UTF-8 bytes. -/
inductive DestinationAddress where
  | Ipv4 : List Nat → DestinationAddress
  | Ipv6 : List Nat → DestinationAddress
  | DomainName : List Nat → DestinationAddress
deriving DecidableEq, Repr

/-! ### UTF-8 validation

Rust `str::from_utf8` / `String::from_utf8` accept exactly the valid UTF-8
byte sequences (no overlong forms, no surrogates, nothing above U+10FFFF).
This is the standard byte-level automaton for that acceptance check. -/

/-- State of the UTF-8 validation automaton: how many continuation bytes
are still expected, and the admissible range for the next byte. -/
structure Utf8State where
  need : Nat
  lo : Nat
  hi : Nat
deriving DecidableEq, Repr

/-- One step of the UTF-8 automaton: classify a lead byte, or consume an
expected continuation byte; `none` means the sequence is invalid. -/
def utf8Step (s : Utf8State) (b : Nat) : Option Utf8State :=
  if s.need ≠ 0 then
    if s.lo ≤ b ∧ b ≤ s.hi then some ⟨s.need - 1, 0x80, 0xBF⟩ else none
  else if b ≤ 0x7F then some ⟨0, 0x80, 0xBF⟩
  else if b < 0xC2 then none
  else if b ≤ 0xDF then some ⟨1, 0x80, 0xBF⟩
  else if b = 0xE0 then some ⟨2, 0xA0, 0xBF⟩
  else if b = 0xED then some ⟨2, 0x80, 0x9F⟩
  else if b ≤ 0xEF then some ⟨2, 0x80, 0xBF⟩
  else if b = 0xF0 then some ⟨3, 0x90, 0xBF⟩
  else if b ≤ 0xF3 then some ⟨3, 0x80, 0xBF⟩
  else if b = 0xF4 then some ⟨3, 0x80, 0x8F⟩
  else none

/-- Whether a byte sequence is valid UTF-8 (the success condition of Rust
`String::from_utf8`): the automaton consumes every byte and ends with no
continuation byte outstanding. -/
def utf8Valid (l : List Nat) : Bool :=
  match l.foldl (fun acc b => acc.bind (fun s => utf8Step s b)) (some ⟨0, 0x80, 0xBF⟩) with
  | some s => s.need = 0
  | none => false

/-! ### Small byte helpers -/

/-- Rust `u16::from_be_bytes` applied to the result of `try_into()` on a
two-byte vector.  All call sites reach it with exactly two bytes (the
parser has already checked `len ≥ 10`), so the catch-all is unreachable. -/
def fromBe2 : List Nat → Nat
  | [a, b] => a * 256 + b
  | _ => 0

/-- Rust `raw_packet.iter().rev().cloned().take(2).rev().collect()`:
the last two bytes of the buffer, in buffer order. -/
def lastTwo (l : List Nat) : List Nat := (l.reverse.take 2).reverse

/-- Rust `u16::to_be_bytes`. -/
def u16ToBe (n : Nat) : List Nat := [n / 256 % 256, n % 256]

/-! ### ClientHello (`src/packets/client_hello.rs`) -/

/-- `ClientHelloError` from `src/packets/errors.rs`.  `IoError` carries an
OS error in Rust; the pure parser never constructs it, so the payload is
dropped here. -/
inductive ClientHelloError where
  | MalformedPacket
  | UnexpectedProtocolVersion : Nat → ClientHelloError
  | IoError
deriving DecidableEq, Repr

/-- `ClientHello` struct from `src/packets/client_hello.rs`. -/
structure ClientHello where
  version : Nat
  methods : List AuthMethod
deriving DecidableEq, Repr

/-- `ClientHello::new` from `src/packets/client_hello.rs`: length check,
version check, `n_methods ≠ 0` check, then the loop
`for &method in &raw_packet[2..]` that keeps the recognizable method bytes
in order (the loop runs over the whole tail of the buffer). -/
def ClientHello.new (raw : List Nat) : Outcome ClientHelloError ClientHello :=
  if raw.length < 3 then .err .MalformedPacket
  else
    let version := raw.getD 0 0
    if version ≠ SOCKS_VERSION then .err (.UnexpectedProtocolVersion version)
    else if raw.getD 1 0 = 0 then .err .MalformedPacket
    else .ok ⟨version, (raw.drop 2).filterMap AuthMethod.tryFrom⟩

/-! ### ClientRequest (`src/packets/client_request.rs`) -/

/-- `ClientRequestError` from `src/packets/errors.rs` (payload of `IoError`
dropped as above). -/
inductive ClientRequestError where
  | MalformedPacket
  | UnexpectedProtocolVersion : Nat → ClientRequestError
  | ErrUnsupportedBindCommand
  | ErrUnsupportedUDPAssociateCommand
  | ErrUnknownCommand
  | ErrUnknownAddressType
  | IoError
deriving DecidableEq, Repr

/-- `ClientRequest` struct from `src/packets/client_request.rs`. -/
structure ClientRequest where
  version : Nat
  command : RequestCommand
  destination_addr : DestinationAddress
  destination_port : Nat
deriving DecidableEq, Repr

/-- `ClientRequest::new` from `src/packets/client_request.rs`.

Control flow of the source, in order: reject `len < 10`; reject
`version ≠ 5`; `RequestCommand::try_from` with `Err → ErrUnknownCommand`,
`Bind → ErrUnsupportedBindCommand`, `UdpAssociate →
ErrUnsupportedUDPAssociateCommand`; the reserved byte `raw_packet[2]` is
read into an unused binding; `AddressType::try_from` with
`Err → ErrUnknownAddressType`; then the address is materialized:
* `Ipv4`: `&raw_packet[4..8]` (in bounds, since `len ≥ 10`);
* `Ipv6`: `&raw_packet[4..20]` — panics when `len < 20`;
* `DomainName`: `&raw_packet[5..domain_name_len + 5]` — panics when
  `domain_name_len + 5 > len`, and `String::from_utf8(..).unwrap()`
  panics on invalid UTF-8;

finally the port is the last two bytes of the whole buffer
(`iter().rev().take(2).rev()`), read big-endian. -/
def ClientRequest.new (raw : List Nat) : Outcome ClientRequestError ClientRequest :=
  if raw.length < 10 then .err .MalformedPacket
  else
    let version := raw.getD 0 0
    if version ≠ SOCKS_VERSION then .err (.UnexpectedProtocolVersion version)
    else
      match RequestCommand.tryFrom (raw.getD 1 0) with
      | none => .err .ErrUnknownCommand
      | some cmd =>
        if cmd = .Bind then .err .ErrUnsupportedBindCommand
        else if cmd = .UdpAssociate then .err .ErrUnsupportedUDPAssociateCommand
        else
          match AddressType.tryFrom (raw.getD 3 0) with
          | none => .err .ErrUnknownAddressType
          | some addressType =>
            let destOpt : Option DestinationAddress :=
              match addressType with
              | .Ipv4 => some (.Ipv4 ((raw.drop 4).take 4))
              | .Ipv6 =>
                if 20 ≤ raw.length then some (.Ipv6 ((raw.drop 4).take 16))
                else none
              | .DomainName =>
                let dlen := raw.getD 4 0
                if dlen + 5 ≤ raw.length then
                  if utf8Valid ((raw.drop 5).take dlen) then
                    some (.DomainName ((raw.drop 5).take dlen))
                  else none
                else none
            match destOpt with
            | none => .panic
            | some dest => .ok ⟨version, cmd, dest, fromBe2 (lastTwo raw)⟩

/-! ### ClientUserPassAuth (`src/packets/client_user_pass_auth.rs`) -/

/-- `UserPassAuthError`: variants referenced by
`src/packets/client_user_pass_auth.rs` together with the ones declared in
`src/packets/errors.rs` (payload of `IoError` dropped as above). -/
inductive UserPassAuthError where
  | MalformedPacket
  | UnexpectedUserPassAuthVersion : Nat → UserPassAuthError
  | FailedAuth
  | IoError
deriving DecidableEq, Repr

/-- `ClientUserPassAuth` struct from `src/packets/client_user_pass_auth.rs`;
the two Rust `String` fields are their UTF-8 byte vectors. -/
structure ClientUserPassAuth where
  version : Nat
  username : List Nat
  password : List Nat
deriving DecidableEq, Repr

/-- `ClientUserPassAuth::new` from `src/packets/client_user_pass_auth.rs`.

Control flow of the source, in order: reject `len < 5`; reject
`version ≠ 1`; slice `&raw_packet[2..username_len + 2]` (panics when out
of bounds) and `str::from_utf8(..).unwrap()` (panics on invalid UTF-8);
index `raw_packet[username_len + 2]` (panics when out of bounds); slice
`&raw_packet[username_len + 3..password_len + username_len + 3]` (panics
when out of bounds) and `unwrap()` again. -/
def ClientUserPassAuth.new (raw : List Nat) : Outcome UserPassAuthError ClientUserPassAuth :=
  if raw.length < 5 then .err .MalformedPacket
  else
    let version := raw.getD 0 0
    if version ≠ USER_PASSWORD_AUTH_VERSION then
      .err (.UnexpectedUserPassAuthVersion version)
    else
      let ulen := raw.getD 1 0
      if raw.length < ulen + 2 then .panic
      else
        let uname := (raw.drop 2).take ulen
        if ¬ utf8Valid uname then .panic
        else if raw.length ≤ ulen + 2 then .panic
        else
          let plen := raw.getD (ulen + 2) 0
          if raw.length < plen + ulen + 3 then .panic
          else
            let pwd := (raw.drop (ulen + 3)).take plen
            if ¬ utf8Valid pwd then .panic
            else .ok ⟨version, uname, pwd⟩

/-! ### ServerHello (`src/packets/server_hello.rs`) -/

/-- `ServerHello` struct from `src/packets/server_hello.rs`. -/
structure ServerHello where
  version : Nat
  method : AuthMethod
deriving DecidableEq, Repr

/-- `ServerHello::new`: always version `SOCKS_VERSION`. -/
def ServerHello.new (method : AuthMethod) : ServerHello :=
  ⟨SOCKS_VERSION, method⟩

/-- `ServerHello::as_bytes`: `[version, method as u8]`. -/
def ServerHello.as_bytes (p : ServerHello) : List Nat :=
  [p.version, p.method.toByte]

/-! ### ServerReply (`src/packets/server_reply.rs`) -/

/-- `Reply` from `src/packets/server_reply.rs`; discriminants 0..8. -/
inductive Reply where
  | Succeeded
  | SocksServerFail
  | ConnNotAllowed
  | NetUnreachable
  | HostUnreachable
  | ConnRefused
  | TTLExpired
  | CmdNotSupported
  | AddrTypeNotSupported
deriving DecidableEq, Repr

/-- Discriminant of `Reply` (`as u8` in Rust). -/
def Reply.toByte : Reply → Nat
  | .Succeeded => 0
  | .SocksServerFail => 1
  | .ConnNotAllowed => 2
  | .NetUnreachable => 3
  | .HostUnreachable => 4
  | .ConnRefused => 5
  | .TTLExpired => 6
  | .CmdNotSupported => 7
  | .AddrTypeNotSupported => 8

/-- `ServerReply` struct from `src/packets/server_reply.rs`. -/
structure ServerReply where
  version : Nat
  reply : Reply
  reserved : Nat
  address_type : AddressType
  bound_address : DestinationAddress
  bound_port : Nat
deriving DecidableEq, Repr

/-- `ServerReply::new_unsuccessful_reply`: version 5, the given reply code,
reserved 0, address type `Ipv4`, bound address `0.0.0.0`, bound port 0. -/
def ServerReply.new_unsuccessful_reply (reply : Reply) : ServerReply :=
  ⟨SOCKS_VERSION, reply, RESERVED, .Ipv4, .Ipv4 [0, 0, 0, 0], 0⟩

/-- `ServerReply::as_bytes` from `src/packets/server_reply.rs`: the four
header bytes, then for `Ipv4`/`Ipv6` the octets followed by the big-endian
port; the `DomainName` arm of the source `match` is `_ => {}`, so nothing
is appended for a domain-name bound address. -/
def ServerReply.as_bytes (p : ServerReply) : List Nat :=
  [p.version, p.reply.toByte, p.reserved, p.address_type.toByte] ++
    match p.bound_address with
    | .Ipv4 octets => octets ++ u16ToBe p.bound_port
    | .Ipv6 octets => octets ++ u16ToBe p.bound_port
    | .DomainName _ => []

/-! ### ServerUserPassResponse (`src/packets/server_user_pass_response.rs`) -/

/-- `ServerUserPassResponse` struct from
`src/packets/server_user_pass_response.rs`. -/
structure ServerUserPassResponse where
  version : Nat
  status : Nat
deriving DecidableEq, Repr

/-- `ServerUserPassResponse::new`: version 1 and
`status = !is_success as u8` (0 on success, 1 on failure). -/
def ServerUserPassResponse.new (ok : Bool) : ServerUserPassResponse :=
  ⟨1, if ok then 0 else 1⟩

/-- `ServerUserPassResponse::as_bytes`: `[version, status]`. -/
def ServerUserPassResponse.as_bytes (p : ServerUserPassResponse) : List Nat :=
  [p.version, p.status]

/-! ### Method negotiation -/

/-- `ServerHelloError` from `src/packets/errors.rs` (payload of
`AuthError` and `IoError` dropped, as for the other error enums). -/
inductive ServerHelloError where
  | NoAcceptableAuth
  | AuthError
  | IoError
deriving DecidableEq, Repr

/-- Modelled from the spec: `AuthSettings` with its `selected_method` and
optional credential mapping (username bytes to password bytes).  The type
is exported by the final `lib.rs`, which is absent from the sources at
hand — the `lib.rs` present is an earlier iteration without it, yet
`main.rs` imports `socks_server::AuthSettings`. -/
structure AuthSettings where
  selected_method : AuthMethod
  credentials : Option (List (List Nat × List Nat))
deriving DecidableEq, Repr

/-- Modelled from the spec: `SocksServer::send_server_hello` of the final
`lib.rs` is absent from the sources at hand (the `lib.rs` present is an
earlier iteration that predates authentication; `ServerHelloError.
NoAcceptableAuth` in `src/packets/errors.rs` is declared for the missing
negotiator).  Per the negotiation contract: if the configured
`selected_method` appears in the hello's method list, emit
`ServerHello(selected_method)`; otherwise emit
`ServerHello(NoAcceptableMethod)` and signal `NoAcceptableAuth`.  The
result is the emitted packet and the signalled error, if any. -/
def send_server_hello (settings : AuthSettings) (hello : ClientHello) :
    ServerHello × Option ServerHelloError :=
  if settings.selected_method ∈ hello.methods then
    (ServerHello.new settings.selected_method, none)
  else
    (ServerHello.new .NoAcceptableMethod, some .NoAcceptableAuth)

/-! ### Round-trip companions

The repository's codec only parses client packets and only serializes
server packets.  The round-trip law of the spec needs the other half of
each pair; those companions are modelled from the spec's byte layouts. -/

/-- Wire byte of a request command (its Rust discriminant). -/
def RequestCommand.toByte : RequestCommand → Nat
  | .Connect => 1
  | .Bind => 2
  | .UdpAssociate => 3

/-- Wire address-type byte matching a destination address' form. -/
def DestinationAddress.atypByte : DestinationAddress → Nat
  | .Ipv4 _ => 1
  | .DomainName _ => 3
  | .Ipv6 _ => 4

/-- Wire body of a destination address: the octets for the IP forms, the
length-prefixed bytes for a domain name. -/
def DestinationAddress.body : DestinationAddress → List Nat
  | .Ipv4 octets => octets
  | .Ipv6 octets => octets
  | .DomainName d => d.length :: d

/-- Modelled from the spec: the client-side serializer of `ClientHello`
(layout `VER NMETHODS METHODS`); the repository has no serializer for
client packets. -/
def serialize_client_hello (p : ClientHello) : List Nat :=
  p.version :: p.methods.length :: p.methods.map AuthMethod.toByte

/-- Modelled from the spec: the client-side serializer of `ClientRequest`
(layout `VER CMD RSV ATYP DST.ADDR DST.PORT`, reserved byte 0, port in
big-endian order). -/
def serialize_client_request (p : ClientRequest) : List Nat :=
  p.version :: p.command.toByte :: 0 :: p.destination_addr.atypByte ::
    (p.destination_addr.body ++ u16ToBe p.destination_port)

/-- Modelled from the spec: the client-side serializer of
`ClientUserPassAuth` (layout `VER ULEN UNAME PLEN PASSWD`). -/
def serialize_client_user_pass_auth (p : ClientUserPassAuth) : List Nat :=
  p.version :: p.username.length :: (p.username ++ p.password.length :: p.password)

/-- Reply code read back from the wire (inverse of the discriminant). -/
def Reply.tryFrom : Nat → Option Reply
  | 0 => some .Succeeded
  | 1 => some .SocksServerFail
  | 2 => some .ConnNotAllowed
  | 3 => some .NetUnreachable
  | 4 => some .HostUnreachable
  | 5 => some .ConnRefused
  | 6 => some .TTLExpired
  | 7 => some .CmdNotSupported
  | 8 => some .AddrTypeNotSupported
  | _ => none

/-- Modelled from the spec: the client-side parser of the two-byte server
hello `[VER, METHOD]`. -/
def parse_server_hello : List Nat → Option ServerHello
  | [v, m] =>
    if v = SOCKS_VERSION then
      (AuthMethod.tryFrom m).map (fun method => ⟨v, method⟩)
    else none
  | _ => none

/-- Modelled from the spec: the client-side parser of the two-byte
user/pass status response `[VER, STATUS]`. -/
def parse_server_user_pass_response : List Nat → Option ServerUserPassResponse
  | [v, s] => if v = USER_PASSWORD_AUTH_VERSION then some ⟨v, s⟩ else none
  | _ => none

/-- Modelled from the spec: the client-side parser of a server reply
(layout `VER REP RSV ATYP BND.ADDR BND.PORT`); the bound address of a
reply is an IPv4 or IPv6 address, so the body is 4 or 16 octets followed
by the two port bytes. -/
def parse_server_reply : List Nat → Option ServerReply
  | v :: rep :: rsv :: atyp :: rest =>
    if v = SOCKS_VERSION ∧ rsv = RESERVED then
      match Reply.tryFrom rep, AddressType.tryFrom atyp with
      | some reply, some .Ipv4 =>
        if rest.length = 6 then
          some ⟨v, reply, rsv, .Ipv4, .Ipv4 (rest.take 4), fromBe2 (rest.drop 4)⟩
        else none
      | some reply, some .Ipv6 =>
        if rest.length = 18 then
          some ⟨v, reply, rsv, .Ipv6, .Ipv6 (rest.take 16), fromBe2 (rest.drop 16)⟩
        else none
      | _, _ => none
    else none
  | _ => none

/-! ### Well-formed packet values

The data model constrains each packet type; these decidable predicates
spell the constraints out. -/

/-- Well-formed destination address: 4 octets for IPv4, 16 for IPv6, a
1..=255-byte valid-UTF-8 domain name; every byte in 0..=255. -/
def WFDestinationAddress : DestinationAddress → Bool
  | .Ipv4 octets => decide (octets.length = 4) && octets.all (fun b => decide (b < 256))
  | .Ipv6 octets => decide (octets.length = 16) && octets.all (fun b => decide (b < 256))
  | .DomainName d => decide (1 ≤ d.length) && decide (d.length ≤ 255) && utf8Valid d

/-- Well-formed `ClientHello`: version 5, 1..=255 methods. -/
def WFClientHello (p : ClientHello) : Bool :=
  decide (p.version = 5) && decide (p.methods ≠ []) && decide (p.methods.length ≤ 255)

/-- Well-formed `ClientRequest`: version 5, a well-formed destination, a
16-bit port; only `Connect` is implemented, the other two commands are
parsed and rejected, so well-formed request values carry `Connect`. -/
def WFClientRequest (p : ClientRequest) : Bool :=
  decide (p.version = 5) && decide (p.command = .Connect) &&
    WFDestinationAddress p.destination_addr && decide (p.destination_port < 65536)

/-- Well-formed `ClientUserPassAuth`: version 1, both strings 1..=255
bytes of valid UTF-8. -/
def WFClientUserPassAuth (p : ClientUserPassAuth) : Bool :=
  decide (p.version = 1) &&
    decide (1 ≤ p.username.length) && decide (p.username.length ≤ 255) &&
    utf8Valid p.username &&
    decide (1 ≤ p.password.length) && decide (p.password.length ≤ 255) &&
    utf8Valid p.password

/-- Well-formed `ServerHello`: version 5. -/
def WFServerHello (p : ServerHello) : Bool :=
  decide (p.version = 5)

/-- Well-formed `ServerUserPassResponse`: version 1, a byte status. -/
def WFServerUserPassResponse (p : ServerUserPassResponse) : Bool :=
  decide (p.version = 1) && decide (p.status < 256)

/-- Well-formed `ServerReply`: version 5, reserved 0, a 16-bit port, and
an IPv4 or IPv6 bound address whose form matches the address-type tag. -/
def WFServerReply (p : ServerReply) : Bool :=
  decide (p.version = 5) && decide (p.reserved = 0) &&
    decide (p.bound_port < 65536) &&
    (match p.bound_address, p.address_type with
      | .Ipv4 octets, .Ipv4 =>
        decide (octets.length = 4) && octets.all (fun b => decide (b < 256))
      | .Ipv6 octets, .Ipv6 =>
        decide (octets.length = 16) && octets.all (fun b => decide (b < 256))
      | _, _ => false)

/-! ### Helper lemmas about the byte-level functions -/

/-- Serializing an auth method and reading it back is the identity. -/
theorem authMethod_tryFrom_toByte (m : AuthMethod) :
    AuthMethod.tryFrom m.toByte = some m := by
  cases m <;> rfl

/-- `lastTwo` of a buffer ending in two given bytes is those two bytes. -/
theorem lastTwo_append_two (l : List Nat) (a b : Nat) :
    lastTwo (l ++ [a, b]) = [a, b] := by
  simp [lastTwo]

/-- Dropping the head does not change `lastTwo` on buffers of length ≥ 2. -/
theorem lastTwo_cons_of_le (a : Nat) (l : List Nat) (h : 2 ≤ l.length) :
    lastTwo (a :: l) = lastTwo l := by
  unfold lastTwo
  rw [List.reverse_cons, List.take_append_of_le_length (by simpa using h)]

/-- Reading back a big-endian `u16` gives the original value. -/
theorem fromBe2_u16ToBe (n : Nat) (h : n < 65536) : fromBe2 (u16ToBe n) = n := by
  simp only [u16ToBe, fromBe2]
  omega

/-- Serializing a reply code and reading it back is the identity. -/
theorem reply_tryFrom_toByte (r : Reply) : Reply.tryFrom r.toByte = some r := by
  cases r <;> rfl

/-- The serialized port round-trips behind any prefix: the last two bytes
of `l ++ u16ToBe n` decode back to `n`. -/
theorem roundtrip_port (l : List Nat) (n : Nat) (h : n < 65536) :
    fromBe2 (lastTwo (l ++ u16ToBe n)) = n := by
  rw [show lastTwo (l ++ u16ToBe n) = u16ToBe n from lastTwo_append_two l _ _]
  exact fromBe2_u16ToBe n h

/-- Byte values other than 1, 2, 3 are not request commands. -/
theorem requestCommand_tryFrom_eq_none (b : Nat)
    (h1 : b ≠ 1) (h2 : b ≠ 2) (h3 : b ≠ 3) : RequestCommand.tryFrom b = none :=
  match b, h1, h2, h3 with
  | 0, _, _, _ => rfl
  | 1, h, _, _ => absurd rfl h
  | 2, _, h, _ => absurd rfl h
  | 3, _, _, h => absurd rfl h
  | (_ + 4), _, _, _ => rfl

/-- Byte values other than 1, 3, 4 are not address types. -/
theorem addressType_tryFrom_eq_none (b : Nat)
    (h1 : b ≠ 1) (h3 : b ≠ 3) (h4 : b ≠ 4) : AddressType.tryFrom b = none :=
  match b, h1, h3, h4 with
  | 0, _, _, _ => rfl
  | 1, h, _, _ => absurd rfl h
  | 2, _, _, _ => rfl
  | 3, _, h, _ => absurd rfl h
  | 4, _, _, h => absurd rfl h
  | (_ + 5), _, _, _ => rfl

/-- A request command that is neither `Bind` nor `UdpAssociate` is
`Connect`. -/
theorem RequestCommand.eq_connect (cmd : RequestCommand)
    (hb : cmd ≠ .Bind) (hu : cmd ≠ .UdpAssociate) : cmd = .Connect := by
  cases cmd
  · rfl
  · exact absurd rfl hb
  · exact absurd rfl hu

/-- A byte parses to a given address type exactly when it is its wire byte. -/
theorem AddressType.tryFrom_eq_some_iff (b : Nat) (t : AddressType) :
    AddressType.tryFrom b = some t ↔ b = t.toByte := by
  constructor
  · intro h
    match b, h with
    | 1, h => injection h with h; rw [← h]; rfl
    | 3, h => injection h with h; rw [← h]; rfl
    | 4, h => injection h with h; rw [← h]; rfl
  · rintro rfl
    cases t <;> rfl

/-- Proof-side restatement of the body of `ClientRequest.new` on a buffer
`b0 :: b1 :: b2 :: b3 :: rest` that has already passed the `len ≥ 10`
check: the reserved byte `b2` is not an argument, because the source reads
it into an unused binding.  Related to `ClientRequest.new` by
`ClientRequest.new_eq_newCore`. -/
def ClientRequest.newCore (b0 b1 b3 : Nat) (rest : List Nat) :
    Outcome ClientRequestError ClientRequest :=
  if b0 ≠ SOCKS_VERSION then .err (.UnexpectedProtocolVersion b0)
  else
    match RequestCommand.tryFrom b1 with
    | none => .err .ErrUnknownCommand
    | some cmd =>
      if cmd = .Bind then .err .ErrUnsupportedBindCommand
      else if cmd = .UdpAssociate then .err .ErrUnsupportedUDPAssociateCommand
      else
        match AddressType.tryFrom b3 with
        | none => .err .ErrUnknownAddressType
        | some addressType =>
          match
            (match addressType with
              | .Ipv4 => some (.Ipv4 (rest.take 4))
              | .Ipv6 =>
                if 20 ≤ rest.length + 4 then some (.Ipv6 (rest.take 16))
                else none
              | .DomainName =>
                if rest.getD 0 0 + 5 ≤ rest.length + 4 then
                  if utf8Valid ((rest.drop 1).take (rest.getD 0 0)) then
                    some (.DomainName ((rest.drop 1).take (rest.getD 0 0)))
                  else none
                else none : Option DestinationAddress) with
          | none => .panic
          | some dest => .ok ⟨b0, cmd, dest, fromBe2 (lastTwo rest)⟩

/-- On any buffer long enough to pass the `len ≥ 10` guard,
`ClientRequest.new` agrees with `ClientRequest.newCore` applied to the
header bytes (minus the reserved byte) and the tail after the header. -/
theorem ClientRequest.new_eq_newCore (b0 b1 b2 b3 : Nat) (rest : List Nat)
    (h : 6 ≤ rest.length) :
    ClientRequest.new (b0 :: b1 :: b2 :: b3 :: rest) =
      ClientRequest.newCore b0 b1 b3 rest := by
  have hnot : ¬ ((b0 :: b1 :: b2 :: b3 :: rest).length < 10) := by
    simp only [List.length_cons]
    omega
  have hlast : lastTwo (b0 :: b1 :: b2 :: b3 :: rest) = lastTwo rest := by
    rw [lastTwo_cons_of_le _ _ (by simp only [List.length_cons]; omega),
      lastTwo_cons_of_le _ _ (by simp only [List.length_cons]; omega),
      lastTwo_cons_of_le _ _ (by simp only [List.length_cons]; omega),
      lastTwo_cons_of_le _ _ (by omega)]
  unfold ClientRequest.new newCore
  rw [if_neg hnot, hlast]
  rfl

/-! ### Claim theorems -/

/-- C1: the claim states that the parsed destination port is read at the
offset fixed by the declared address form (bytes 8..10 for an IPv4
request) and is independent of excess bytes after the protocol packet.
The code instead takes the last two bytes of the whole buffer: on the
12-byte buffer below — a valid IPv4 connect request for port 0x0050
followed by two excess bytes 0xAB 0xCD — `ClientRequest::new` returns
port 0xABCD, not the port 0x0050 stored at bytes 8..10. -/
theorem c1_port_is_read_from_buffer_tail :
    ClientRequest.new [5, 1, 0, 1, 127, 0, 0, 1, 0x00, 0x50, 0xAB, 0xCD]
        = .ok ⟨5, .Connect, .Ipv4 [127, 0, 0, 1], 0xABCD⟩ ∧
      fromBe2 [0x00, 0x50] = 0x50 ∧ (0xABCD : Nat) ≠ 0x50 := by
  refine ⟨by decide, by decide, by decide⟩

/-- C2: the claim states that only the `n_methods` bytes at offsets
`2 .. 2 + n_methods` contribute methods.  On the buffer `[5, 1, 0, 2]` —
`n_methods = 1`, method list `[0x00]`, one excess byte `0x02` — the code
returns `[NoAuth, UserPassword]`: the excess byte beyond `2 + n_methods`
contributed a method, where the claim requires `[NoAuth]` alone. -/
theorem c2_excess_bytes_contribute_methods :
    ClientHello.new [5, 1, 0, 2] = .ok ⟨5, [.NoAuth, .UserPassword]⟩ ∧
      [AuthMethod.NoAuth, AuthMethod.UserPassword] ≠ [AuthMethod.NoAuth] := by
  refine ⟨by decide, by decide⟩

/-- C3: the claim states that invalid UTF-8 in a string field yields a
malformed-packet error value.  The code calls `unwrap()` on the UTF-8
conversion and panics instead: a 10-byte connect request whose declared
3-byte domain name is `FF FF FF`, and a user/pass auth packet whose
1-byte username is `FF`, both panic rather than return an error. -/
theorem c3_invalid_utf8_panics :
    ClientRequest.new [5, 1, 0, 3, 3, 0xFF, 0xFF, 0xFF, 0, 80] = .panic ∧
      ClientUserPassAuth.new [1, 1, 0xFF, 1, 0x61] = .panic := by
  refine ⟨by decide, by decide⟩

/-- C4: for every parsed client hello and every configuration, if the
configured `selected_method` appears in the hello's method list the
server hello on the wire carries that method, and no error is signalled;
otherwise the server hello carries `NoAcceptableMethod` (0xFF) and
`NoAcceptableAuth` is signalled. -/
theorem c4_method_negotiation (settings : AuthSettings) (hello : ClientHello) :
    (settings.selected_method ∈ hello.methods →
      (send_server_hello settings hello).1.as_bytes
          = [5, settings.selected_method.toByte] ∧
        (send_server_hello settings hello).2 = none) ∧
    (settings.selected_method ∉ hello.methods →
      (send_server_hello settings hello).1.as_bytes = [5, 0xFF] ∧
        (send_server_hello settings hello).2 = some .NoAcceptableAuth) := by
  constructor <;> intro h <;>
    simp [send_server_hello, h, ServerHello.new, ServerHello.as_bytes,
      SOCKS_VERSION, AuthMethod.toByte]

/-- Witness for C4: with `UserPassword` configured and offered, the hello
is `[0x05, 0x02]`; with `UserPassword` configured but only `NoAuth`
offered, the hello is `[0x05, 0xFF]` and `NoAcceptableAuth` is signalled. -/
theorem c4_method_negotiation_witness :
    ((send_server_hello ⟨.UserPassword, none⟩ ⟨5, [.NoAuth, .UserPassword]⟩).1.as_bytes
        = [5, 2] ∧
      (send_server_hello ⟨.UserPassword, none⟩ ⟨5, [.NoAuth, .UserPassword]⟩).2 = none) ∧
    ((send_server_hello ⟨.UserPassword, none⟩ ⟨5, [.NoAuth]⟩).1.as_bytes = [5, 0xFF] ∧
      (send_server_hello ⟨.UserPassword, none⟩ ⟨5, [.NoAuth]⟩).2
          = some .NoAcceptableAuth) :=
  ⟨(c4_method_negotiation ⟨.UserPassword, none⟩ ⟨5, [.NoAuth, .UserPassword]⟩).1
      (by decide),
    (c4_method_negotiation ⟨.UserPassword, none⟩ ⟨5, [.NoAuth]⟩).2 (by decide)⟩

/-- C5: on buffers of length ≥ 10 with version byte 5: command byte 2
yields `ErrUnsupportedBindCommand`, command byte 3 yields
`ErrUnsupportedUDPAssociateCommand`, a command byte outside {1,2,3}
yields `ErrUnknownCommand`, and (the command byte being 1, so that the
command checks pass) an address-type byte outside {1,3,4} yields
`ErrUnknownAddressType`; overwriting the reserved byte never changes the
result; and every `Ok` result carries the `Connect` command. -/
theorem c5_command_dispatch (raw : List Nat)
    (hlen : 10 ≤ raw.length) (hver : raw.getD 0 0 = 5) :
    (raw.getD 1 0 = 2 → ClientRequest.new raw = .err .ErrUnsupportedBindCommand) ∧
    (raw.getD 1 0 = 3 →
      ClientRequest.new raw = .err .ErrUnsupportedUDPAssociateCommand) ∧
    (raw.getD 1 0 ≠ 1 → raw.getD 1 0 ≠ 2 → raw.getD 1 0 ≠ 3 →
      ClientRequest.new raw = .err .ErrUnknownCommand) ∧
    (raw.getD 1 0 = 1 → raw.getD 3 0 ≠ 1 → raw.getD 3 0 ≠ 3 → raw.getD 3 0 ≠ 4 →
      ClientRequest.new raw = .err .ErrUnknownAddressType) ∧
    (∀ b, ClientRequest.new (raw.set 2 b) = ClientRequest.new raw) ∧
    (∀ cr, ClientRequest.new raw = .ok cr → cr.command = .Connect) := by
  obtain ⟨b0, t0, rfl⟩ : ∃ x t, raw = x :: t := by
    cases raw with
    | nil => simp at hlen
    | cons x t => exact ⟨x, t, rfl⟩
  obtain ⟨b1, t1, rfl⟩ : ∃ x t, t0 = x :: t := by
    cases t0 with
    | nil => simp at hlen
    | cons x t => exact ⟨x, t, rfl⟩
  obtain ⟨b2, t2, rfl⟩ : ∃ x t, t1 = x :: t := by
    cases t1 with
    | nil => simp only [List.length_cons, List.length_nil] at hlen; omega
    | cons x t => exact ⟨x, t, rfl⟩
  obtain ⟨b3, rest, rfl⟩ : ∃ x t, t2 = x :: t := by
    cases t2 with
    | nil => simp only [List.length_cons, List.length_nil] at hlen; omega
    | cons x t => exact ⟨x, t, rfl⟩
  have hrest : 6 ≤ rest.length := by
    simp only [List.length_cons] at hlen
    omega
  have hb0 : b0 = 5 := hver
  subst hb0
  refine ⟨?_, ?_, ?_, ?_, ?_, ?_⟩
  · intro h1
    have hb1 : b1 = 2 := h1
    subst hb1
    rw [ClientRequest.new_eq_newCore _ _ _ _ _ hrest]
    rfl
  · intro h1
    have hb1 : b1 = 3 := h1
    subst hb1
    rw [ClientRequest.new_eq_newCore _ _ _ _ _ hrest]
    rfl
  · intro h1 h2 h3
    have hcmd : RequestCommand.tryFrom b1 = none :=
      requestCommand_tryFrom_eq_none b1 h1 h2 h3
    rw [ClientRequest.new_eq_newCore _ _ _ _ _ hrest]
    unfold ClientRequest.newCore
    rw [hcmd]
    rfl
  · intro h1 ha1 ha3 ha4
    have hb1 : b1 = 1 := h1
    subst hb1
    have haddr : AddressType.tryFrom b3 = none :=
      addressType_tryFrom_eq_none b3 ha1 ha3 ha4
    rw [ClientRequest.new_eq_newCore _ _ _ _ _ hrest]
    unfold ClientRequest.newCore
    rw [haddr]
    rfl
  · intro b
    show ClientRequest.new (5 :: b1 :: b :: b3 :: rest)
        = ClientRequest.new (5 :: b1 :: b2 :: b3 :: rest)
    rw [ClientRequest.new_eq_newCore _ _ _ _ _ hrest,
      ClientRequest.new_eq_newCore _ _ _ _ _ hrest]
  · intro cr h
    rw [ClientRequest.new_eq_newCore _ _ _ _ _ hrest] at h
    unfold ClientRequest.newCore at h
    repeat' split at h
    all_goals try (exact (Outcome.noConfusion h))
    all_goals
      injection h with h2
      rw [← h2]
      exact RequestCommand.eq_connect _ (by assumption) (by assumption)

/-- Witness for C5 at a concrete BIND request (command byte 2). -/
theorem c5_command_dispatch_witness :
    ClientRequest.new [5, 2, 0, 1, 0, 0, 0, 0, 0, 80]
      = .err .ErrUnsupportedBindCommand :=
  (c5_command_dispatch [5, 2, 0, 1, 0, 0, 0, 0, 0, 80]
    (by decide) (by decide)).1 (by decide)

/-- C6: for every non-success reply code, the serialized unsuccessful
reply is exactly the ten bytes
`[0x05, reply_code, 0x00, 0x01, 0, 0, 0, 0, 0, 0]`. -/
theorem c6_unsuccessful_reply_bytes (reply : Reply) (h : reply ≠ .Succeeded) :
    (ServerReply.new_unsuccessful_reply reply).as_bytes
      = [5, reply.toByte, 0, 1, 0, 0, 0, 0, 0, 0] := by
  cases reply <;> rfl

/-- Witness for C6 at the concrete reply code `ConnRefused` (0x05). -/
theorem c6_unsuccessful_reply_bytes_witness :
    (ServerReply.new_unsuccessful_reply .ConnRefused).as_bytes
      = [5, 5, 0, 1, 0, 0, 0, 0, 0, 0] :=
  c6_unsuccessful_reply_bytes .ConnRefused (by decide)

/-- C7: `ClientHello::new` returns an error on every buffer shorter than
3 bytes (the malformed-packet error, before any field is inspected), on
every buffer whose first byte is not 5, and on every buffer whose
`n_methods` byte is 0; `ClientRequest::new` returns the malformed-packet
error on every buffer shorter than 10 bytes, before inspecting the
remaining fields. -/
theorem c7_length_and_header_rejection (raw : List Nat) :
    (raw.length < 3 → ClientHello.new raw = .err .MalformedPacket) ∧
    (raw.getD 0 0 ≠ 5 → ∃ e, ClientHello.new raw = .err e) ∧
    (raw.getD 1 0 = 0 → ∃ e, ClientHello.new raw = .err e) ∧
    (raw.length < 10 → ClientRequest.new raw = .err .MalformedPacket) := by
  refine ⟨?_, ?_, ?_, ?_⟩
  · intro h
    unfold ClientHello.new
    rw [if_pos h]
  · intro h
    by_cases hl : raw.length < 3
    · exact ⟨.MalformedPacket, by unfold ClientHello.new; rw [if_pos hl]⟩
    · refine ⟨.UnexpectedProtocolVersion (raw.getD 0 0), ?_⟩
      simp only [List.getD_eq_getElem?_getD] at h
      simp [ClientHello.new, hl, SOCKS_VERSION, h]
  · intro h
    by_cases hl : raw.length < 3
    · exact ⟨.MalformedPacket, by unfold ClientHello.new; rw [if_pos hl]⟩
    · by_cases hv : raw.getD 0 0 = 5
      · refine ⟨.MalformedPacket, ?_⟩
        simp only [List.getD_eq_getElem?_getD] at h hv
        simp [ClientHello.new, hl, hv, SOCKS_VERSION, h]
      · refine ⟨.UnexpectedProtocolVersion (raw.getD 0 0), ?_⟩
        simp only [List.getD_eq_getElem?_getD] at hv
        simp [ClientHello.new, hl, hv, SOCKS_VERSION]
  · intro h
    unfold ClientRequest.new
    rw [if_pos h]

/-- Witness for C7 at the one-byte buffer `[6]`: shorter than both
minimum lengths, so both parsers report a malformed packet. -/
theorem c7_length_and_header_rejection_witness :
    ClientHello.new [6] = .err .MalformedPacket ∧
      ClientRequest.new [6] = .err .MalformedPacket :=
  ⟨(c7_length_and_header_rejection [6]).1 (by decide),
    (c7_length_and_header_rejection [6]).2.2.2 (by decide)⟩

/-- C8 counterexample: the claim asserts `parse(serialize(value)) ==
value` for every well-formed packet value.  The client request for the
well-formed 1-byte domain name `"a"` serializes to 8 bytes, which
`ClientRequest::new` rejects as shorter than the 10-byte minimum, so the
round-trip fails on it. -/
theorem c8_roundtrip_counterexample :
    WFClientRequest ⟨5, .Connect, .DomainName [0x61], 80⟩ = true ∧
      ClientRequest.new (serialize_client_request ⟨5, .Connect, .DomainName [0x61], 80⟩)
        = .err .MalformedPacket ∧
      ClientRequest.new (serialize_client_request ⟨5, .Connect, .DomainName [0x61], 80⟩)
        ≠ .ok ⟨5, .Connect, .DomainName [0x61], 80⟩ := by
  refine ⟨by decide, by decide, by decide⟩

/-- C8 amended: `parse(serialize(value)) == value` holds for every
well-formed value of every packet type, except that a client request
whose destination is a domain name needs that name to be at least 3
bytes long (shorter domain names serialize to fewer than the 10 bytes
the request parser requires, and are rejected). -/
theorem c8_roundtrip_amended :
    (∀ p : ClientHello, WFClientHello p = true →
      ClientHello.new (serialize_client_hello p) = .ok p) ∧
    (∀ p : ClientRequest, WFClientRequest p = true →
      (∀ d, p.destination_addr = .DomainName d → 3 ≤ d.length) →
      ClientRequest.new (serialize_client_request p) = .ok p) ∧
    (∀ p : ClientUserPassAuth, WFClientUserPassAuth p = true →
      ClientUserPassAuth.new (serialize_client_user_pass_auth p) = .ok p) ∧
    (∀ p : ServerHello, WFServerHello p = true →
      parse_server_hello p.as_bytes = some p) ∧
    (∀ p : ServerUserPassResponse, WFServerUserPassResponse p = true →
      parse_server_user_pass_response p.as_bytes = some p) ∧
    (∀ p : ServerReply, WFServerReply p = true →
      parse_server_reply p.as_bytes = some p) := by
  refine ⟨?_, ?_, ?_, ?_, ?_, ?_⟩
  · rintro ⟨v, methods⟩ hwf
    simp only [WFClientHello, Bool.and_eq_true, decide_eq_true_eq] at hwf
    obtain ⟨⟨hv, hne⟩, hle⟩ := hwf
    subst hv
    have hn : 1 ≤ methods.length := List.length_pos.mpr hne
    rw [show serialize_client_hello ⟨5, methods⟩
        = 5 :: methods.length :: methods.map AuthMethod.toByte from rfl]
    unfold ClientHello.new
    rw [if_neg (by simp only [List.length_cons, List.length_map]; omega)]
    simp only []
    rw [show (5 :: methods.length :: methods.map AuthMethod.toByte).getD 0 0 = 5 from rfl,
      show (5 :: methods.length :: methods.map AuthMethod.toByte).getD 1 0
        = methods.length from rfl,
      show (5 :: methods.length :: methods.map AuthMethod.toByte).drop 2
        = methods.map AuthMethod.toByte from rfl,
      if_neg (by decide : ¬ ((5 : Nat) ≠ SOCKS_VERSION)),
      if_neg (by omega : ¬ (methods.length = 0)),
      List.filterMap_map,
      show (AuthMethod.tryFrom ∘ AuthMethod.toByte) = some from
        funext authMethod_tryFrom_toByte,
      List.filterMap_some]
  · rintro ⟨v, cmd, dest, port⟩ hwf hdom
    simp only [WFClientRequest, Bool.and_eq_true, decide_eq_true_eq] at hwf
    obtain ⟨⟨⟨hv, hcmd⟩, hwfd⟩, hport⟩ := hwf
    subst hv
    subst hcmd
    cases dest with
    | Ipv4 octets =>
      simp only [WFDestinationAddress, Bool.and_eq_true, decide_eq_true_eq] at hwfd
      obtain ⟨ho4, -⟩ := hwfd
      have hrest : 6 ≤ (octets ++ u16ToBe port).length := by
        simp [ho4, u16ToBe]
      rw [show serialize_client_request ⟨5, .Connect, .Ipv4 octets, port⟩
          = 5 :: 1 :: 0 :: 1 :: (octets ++ u16ToBe port) from rfl,
        ClientRequest.new_eq_newCore _ _ _ _ _ hrest]
      simp [ClientRequest.newCore, RequestCommand.tryFrom, AddressType.tryFrom,
        SOCKS_VERSION, List.take_left' ho4, roundtrip_port _ _ hport]
    | Ipv6 octets =>
      simp only [WFDestinationAddress, Bool.and_eq_true, decide_eq_true_eq] at hwfd
      obtain ⟨ho16, -⟩ := hwfd
      have hrest : 6 ≤ (octets ++ u16ToBe port).length := by
        simp [ho16, u16ToBe]
      rw [show serialize_client_request ⟨5, .Connect, .Ipv6 octets, port⟩
          = 5 :: 1 :: 0 :: 4 :: (octets ++ u16ToBe port) from rfl,
        ClientRequest.new_eq_newCore _ _ _ _ _ hrest]
      simp [ClientRequest.newCore, RequestCommand.tryFrom, AddressType.tryFrom,
        SOCKS_VERSION, ho16, show (u16ToBe port).length = 2 from rfl,
        List.take_left' ho16, roundtrip_port _ _ hport]
    | DomainName d =>
      simp only [WFDestinationAddress, Bool.and_eq_true, decide_eq_true_eq] at hwfd
      obtain ⟨⟨hd1, hd255⟩, hdu⟩ := hwfd
      have hd3 : 3 ≤ d.length := hdom d rfl
      have hrest : 6 ≤ (d.length :: (d ++ u16ToBe port)).length := by
        simp only [List.length_cons, List.length_append, u16ToBe]
        omega
      have hcond : d.length + 5 ≤ (d.length :: (d ++ u16ToBe port)).length + 4 := by
        simp only [List.length_cons, List.length_append, u16ToBe]
        omega
      rw [show serialize_client_request ⟨5, .Connect, .DomainName d, port⟩
          = 5 :: 1 :: 0 :: 3 :: (d.length :: (d ++ u16ToBe port)) from rfl,
        ClientRequest.new_eq_newCore _ _ _ _ _ hrest]
      simp [ClientRequest.newCore, RequestCommand.tryFrom, AddressType.tryFrom,
        SOCKS_VERSION,
        show (d.length :: (d ++ u16ToBe port)).getD 0 0 = d.length from rfl,
        show (d.length :: (d ++ u16ToBe port)).drop 1 = d ++ u16ToBe port from rfl,
        hcond, List.take_left, hdu,
        lastTwo_cons_of_le d.length (d ++ u16ToBe port) (by simp [u16ToBe]),
        roundtrip_port d port hport]
  · rintro ⟨v, u, w⟩ hwf
    simp only [WFClientUserPassAuth, Bool.and_eq_true, decide_eq_true_eq] at hwf
    obtain ⟨⟨⟨⟨⟨⟨hv, hu1⟩, hu255⟩, huu⟩, hw1⟩, hw255⟩, hww⟩ := hwf
    subst hv
    rw [show serialize_client_user_pass_auth ⟨1, u, w⟩
        = 1 :: u.length :: (u ++ w.length :: w) from rfl]
    unfold ClientUserPassAuth.new
    simp only []
    have elen : (1 :: u.length :: (u ++ w.length :: w)).length
        = u.length + w.length + 3 := by
      simp only [List.length_cons, List.length_append]
      omega
    have e2 : (1 :: u.length :: (u ++ w.length :: w)).getD (u.length + 2) 0
        = w.length := by
      rw [show (1 :: u.length :: (u ++ w.length :: w)).getD (u.length + 2) 0
          = (u ++ w.length :: w).getD u.length 0 from rfl,
        List.getD_append_right u (w.length :: w) 0 u.length (Nat.le_refl _)]
      simp
    have e3 : (1 :: u.length :: (u ++ w.length :: w)).drop (u.length + 3) = w := by
      rw [show (1 :: u.length :: (u ++ w.length :: w)).drop (u.length + 3)
          = (u ++ w.length :: w).drop (u.length + 1) from rfl,
        show u ++ w.length :: w = (u ++ [w.length]) ++ w by simp,
        show u.length + 1 = (u ++ [w.length]).length by simp]
      exact List.drop_left _ _
    rw [elen,
      show (1 :: u.length :: (u ++ w.length :: w)).getD 0 0 = 1 from rfl,
      show (1 :: u.length :: (u ++ w.length :: w)).getD 1 0 = u.length from rfl,
      show (1 :: u.length :: (u ++ w.length :: w)).drop 2 = u ++ w.length :: w from rfl,
      if_neg (by omega : ¬ (u.length + w.length + 3 < 5)),
      if_neg (by decide : ¬ ((1 : Nat) ≠ USER_PASSWORD_AUTH_VERSION)),
      if_neg (by omega : ¬ (u.length + w.length + 3 < u.length + 2)),
      List.take_left,
      if_neg (not_not_intro huu),
      if_neg (by omega : ¬ (u.length + w.length + 3 ≤ u.length + 2)),
      e2,
      if_neg (by omega : ¬ (u.length + w.length + 3 < w.length + u.length + 3)),
      e3, List.take_length,
      if_neg (not_not_intro hww)]
  · rintro ⟨v, m⟩ hwf
    simp only [WFServerHello, decide_eq_true_eq] at hwf
    subst hwf
    cases m <;> rfl
  · rintro ⟨v, s⟩ hwf
    simp only [WFServerUserPassResponse, Bool.and_eq_true, decide_eq_true_eq] at hwf
    obtain ⟨hv, -⟩ := hwf
    subst hv
    rfl
  · rintro ⟨v, reply, rsv, atyp, bound, port⟩ hwf
    simp only [WFServerReply, Bool.and_eq_true, decide_eq_true_eq] at hwf
    obtain ⟨⟨⟨hv, hrsv⟩, hport⟩, hmatch⟩ := hwf
    subst hv
    subst hrsv
    cases bound with
    | Ipv4 octets =>
      cases atyp with
      | Ipv4 =>
        simp only [Bool.and_eq_true, decide_eq_true_eq] at hmatch
        obtain ⟨ho4, -⟩ := hmatch
        rw [show (ServerReply.mk 5 reply 0 .Ipv4 (.Ipv4 octets) port).as_bytes
            = 5 :: reply.toByte :: 0 :: 1 :: (octets ++ u16ToBe port) from rfl]
        simp [parse_server_reply, reply_tryFrom_toByte, AddressType.tryFrom,
          SOCKS_VERSION, RESERVED, ho4, show (u16ToBe port).length = 2 from rfl,
          List.take_left' ho4, List.drop_left' ho4, fromBe2_u16ToBe port hport]
      | DomainName => simp at hmatch
      | Ipv6 => simp at hmatch
    | Ipv6 octets =>
      cases atyp with
      | Ipv6 =>
        simp only [Bool.and_eq_true, decide_eq_true_eq] at hmatch
        obtain ⟨ho16, -⟩ := hmatch
        rw [show (ServerReply.mk 5 reply 0 .Ipv6 (.Ipv6 octets) port).as_bytes
            = 5 :: reply.toByte :: 0 :: 4 :: (octets ++ u16ToBe port) from rfl]
        simp [parse_server_reply, reply_tryFrom_toByte, AddressType.tryFrom,
          SOCKS_VERSION, RESERVED, ho16, show (u16ToBe port).length = 2 from rfl,
          List.take_left' ho16, List.drop_left' ho16, fromBe2_u16ToBe port hport]
      | DomainName => simp at hmatch
      | Ipv4 => simp at hmatch
    | DomainName d => cases atyp <;> simp at hmatch

/-- Witness for C8's amended round-trip at one concrete well-formed value
of each packet type. -/
theorem c8_roundtrip_amended_witness :
    ClientHello.new (serialize_client_hello ⟨5, [.NoAuth]⟩) = .ok ⟨5, [.NoAuth]⟩ ∧
      ClientRequest.new
          (serialize_client_request ⟨5, .Connect, .Ipv4 [127, 0, 0, 1], 1080⟩)
        = .ok ⟨5, .Connect, .Ipv4 [127, 0, 0, 1], 1080⟩ ∧
      ClientUserPassAuth.new
          (serialize_client_user_pass_auth ⟨1, [0x61], [0x62]⟩)
        = .ok ⟨1, [0x61], [0x62]⟩ ∧
      parse_server_hello (ServerHello.mk 5 .UserPassword).as_bytes
        = some ⟨5, .UserPassword⟩ ∧
      parse_server_user_pass_response (ServerUserPassResponse.mk 1 0).as_bytes
        = some ⟨1, 0⟩ ∧
      parse_server_reply
          (ServerReply.mk 5 .Succeeded 0 .Ipv4 (.Ipv4 [127, 0, 0, 1]) 1080).as_bytes
        = some ⟨5, .Succeeded, 0, .Ipv4, .Ipv4 [127, 0, 0, 1], 1080⟩ :=
  ⟨c8_roundtrip_amended.1 ⟨5, [.NoAuth]⟩ (by decide),
    c8_roundtrip_amended.2.1 ⟨5, .Connect, .Ipv4 [127, 0, 0, 1], 1080⟩ (by decide)
      (fun d hd => DestinationAddress.noConfusion hd),
    c8_roundtrip_amended.2.2.1 ⟨1, [0x61], [0x62]⟩ (by decide),
    c8_roundtrip_amended.2.2.2.1 ⟨5, .UserPassword⟩ (by decide),
    c8_roundtrip_amended.2.2.2.2.1 ⟨1, 0⟩ (by decide),
    c8_roundtrip_amended.2.2.2.2.2
      ⟨5, .Succeeded, 0, .Ipv4, .Ipv4 [127, 0, 0, 1], 1080⟩ (by decide)⟩

/-- C9: when the bound address of a `ServerReply` is a domain name,
`as_bytes` emits exactly the four header bytes and appends neither the
domain bytes nor the port. -/
theorem c9_domain_reply_serializes_header_only (p : ServerReply) (d : List Nat)
    (h : p.bound_address = .DomainName d) :
    p.as_bytes = [p.version, p.reply.toByte, p.reserved, p.address_type.toByte] := by
  simp [ServerReply.as_bytes, h]

/-- C10 counterexample: the 10-byte buffer below passes every header
check (version 5, command 1, address type 4 = IPv6), yet `ClientRequest::
new` slices `raw_packet[4..20]` out of a 10-byte buffer and panics, so a
length-10 buffer does not always yield `Ok` or an error value. -/
theorem c10_len10_ipv6_request_panics :
    ClientRequest.new [5, 1, 0, 4, 0, 0, 0, 0, 0, 0] = .panic := by decide

/-- C10 amended: on buffers of length ≥ 10, `ClientRequest::new` returns
`Ok` or an error value without panicking, provided that a declared IPv6
address form comes in a buffer of length ≥ 20, and a declared domain-name
form satisfies `domain_length + 5 ≤ len` and carries valid UTF-8 in its
domain bytes. -/
theorem c10_no_panic_under_address_bounds (raw : List Nat)
    (hlen : 10 ≤ raw.length)
    (h6 : raw.getD 3 0 = 4 → 20 ≤ raw.length)
    (hd1 : raw.getD 3 0 = 3 → raw.getD 4 0 + 5 ≤ raw.length)
    (hd2 : raw.getD 3 0 = 3 →
      utf8Valid ((raw.drop 5).take (raw.getD 4 0)) = true) :
    ClientRequest.new raw ≠ .panic := by
  obtain ⟨b0, t0, rfl⟩ : ∃ x t, raw = x :: t := by
    cases raw with
    | nil => simp at hlen
    | cons x t => exact ⟨x, t, rfl⟩
  obtain ⟨b1, t1, rfl⟩ : ∃ x t, t0 = x :: t := by
    cases t0 with
    | nil => simp at hlen
    | cons x t => exact ⟨x, t, rfl⟩
  obtain ⟨b2, t2, rfl⟩ : ∃ x t, t1 = x :: t := by
    cases t1 with
    | nil => simp only [List.length_cons, List.length_nil] at hlen; omega
    | cons x t => exact ⟨x, t, rfl⟩
  obtain ⟨b3, rest, rfl⟩ : ∃ x t, t2 = x :: t := by
    cases t2 with
    | nil => simp only [List.length_cons, List.length_nil] at hlen; omega
    | cons x t => exact ⟨x, t, rfl⟩
  have hrest : 6 ≤ rest.length := by
    simp only [List.length_cons] at hlen
    omega
  have h6' : b3 = 4 → 20 ≤ rest.length + 4 := h6
  have hd1' : b3 = 3 → rest.getD 0 0 + 5 ≤ rest.length + 4 := hd1
  have hd2' : b3 = 3 → utf8Valid ((rest.drop 1).take (rest.getD 0 0)) = true := hd2
  rw [ClientRequest.new_eq_newCore _ _ _ _ _ hrest]
  unfold ClientRequest.newCore
  intro h
  repeat' split at h
  all_goals try (exact (Outcome.noConfusion h))
  rename_i addressType htf destOpt hdest
  cases addressType with
  | Ipv4 => exact Option.noConfusion hdest
  | Ipv6 =>
    have hb3 : b3 = 4 := (AddressType.tryFrom_eq_some_iff b3 .Ipv6).mp htf
    rw [if_pos (h6' hb3)] at hdest
    exact Option.noConfusion hdest
  | DomainName =>
    have hb3 : b3 = 3 := (AddressType.tryFrom_eq_some_iff b3 .DomainName).mp htf
    rw [if_pos (hd1' hb3), if_pos (hd2' hb3)] at hdest
    exact Option.noConfusion hdest

/-- Witness for C10's amended theorem at a concrete IPv4 connect request. -/
theorem c10_no_panic_under_address_bounds_witness :
    ClientRequest.new [5, 1, 0, 1, 10, 0, 0, 1, 0, 80] ≠ .panic :=
  c10_no_panic_under_address_bounds [5, 1, 0, 1, 10, 0, 0, 1, 0, 80]
    (by decide) (by decide) (by decide) (by decide)

/-- Witness for C9 at a concrete reply with a domain-name bound address. -/
theorem c9_domain_reply_serializes_header_only_witness :
    (ServerReply.mk 5 .Succeeded 0 .DomainName (.DomainName [0x61]) 80).as_bytes
      = [5, 0, 0, 3] :=
  c9_domain_reply_serializes_header_only _ [0x61] rfl

end Socks
